import Mathlib

/-!
Verification of the Android SDK installer (`AndroidSdkInstaller`, `src/unnamed/part_000`)
against its natural-language specification.

The installer's stage bodies (download, install, update-variables, post-install and
their sub-steps) are embedded shallowly as pure Lean functions over explicit inputs:
the outcomes of external collaborators (filesystem existence checks, the verified
download primitive, `childProcess.exec` / `childProcess.spawn` events) are passed in
as oracle values, and the observable effects of a run (download requests, archive
extraction, `chown` calls, spawned processes) are recorded as an explicit action list.
The lifecycle engine (`InstallerBase.run`) is not part of this repository slice and is
modelled from the specification where needed; everything else is translated directly
from the TypeScript source.
-/

/-- Returns true when the list `p` is an initial segment of `l`.  Helper for the
substring test used to model the regular-expression check in the source. -/
def listStartsWith : List Char → List Char → Bool
  | _, [] => true
  | [], _ :: _ => false
  | a :: as, b :: bs => a == b && listStartsWith as bs

/-- Returns true when `pat` occurs contiguously somewhere inside `hay`. -/
def containsSeq : List Char → List Char → Bool
  | [], pat => pat.isEmpty
  | c :: t, pat => listStartsWith (c :: t) pat || containsSeq t pat

/-- Substring test on strings, via the underlying character lists. -/
def containsSub (hay pat : String) : Bool :=
  containsSeq hay.data pat.data

/-- Model of Node's `path.join` on two already-normalized segments: empty segments
are dropped, otherwise the two are joined with a single separator.  (Node's general
`path.join` also normalizes its result; the segments joined by this installer are
literals and already-normalized paths, for which no normalization occurs.) -/
def pathJoin2 (a b : String) : String :=
  if a = "" then b else if b = "" then a else a ++ "/" ++ b

/-- Accumulates the basename characters of a path: reset at each separator.
Helper for `basename`. -/
def basenameAux : List Char → List Char → List Char
  | [], acc => acc.reverse
  | '/' :: rest, _ => basenameAux rest []
  | c :: rest, acc => basenameAux rest (c :: acc)

/-- Model of Node's `path.basename` for paths without a trailing separator:
the final component after the last `/`. -/
def basename (s : String) : String :=
  String.mk (basenameAux s.data [])

/-- Failure conditions surfaced by the installer's stages, following the
specification's error taxonomy; each constructor carries the payload the source
attaches to the rejected `Error`. -/
inductive PipeError where
  | missingInstallDestination
  | downloadFailed
  | variableUpdateFailed (msg : String)
  | execFailed (msg : String)
  | spawnError (msg : String)
  | postInstallFailed (stderr : String)
  | daemonKillFailed (msg : String)
  | jsTypeError
  | unsupportedPlatform
  deriving DecidableEq, Repr

/-- Terminal event of a supervised child process: either the `"error"` event
(spawn failure, carrying the error message) or the `"exit"` event with an exit
code.  Used for both the package-manager child and the adb kill-server child. -/
inductive ProcEnd where
  | errEvent (msg : String)
  | exitEvent (code : Int)
  deriving DecidableEq, Repr

/-- The stderr text accumulated by `installAndroidPackages`: the source starts
from `""` and appends each `stderr` data chunk (`errorOutput += data.toString()`,
part_000 lines 252 and 273-275). -/
def capturedStderr (chunks : List String) : String :=
  chunks.foldl (· ++ ·) ""

/-- Resolution of the package-installation child process, from part_000 lines
276-292: the `"error"` event rejects with the spawn error; the `"exit"` event
rejects with `new Error(errorOutput)` when the accumulated stderr is non-empty
(JavaScript string truthiness) and resolves otherwise.  The exit code is only
recorded in telemetry, never consulted. -/
def installAndroidPackagesOutcome (stderrChunks : List String) (ending : ProcEnd) :
    Except PipeError Unit :=
  match ending with
  | .errEvent msg => .error (.spawnError msg)
  | .exitEvent _ =>
      if capturedStderr stderrChunks = "" then .ok ()
      else .error (.postInstallFailed (capturedStderr stderrChunks))

/-- Resolution of the adb `kill-server` child process, from part_000 lines
219-238 (`killAdb`): the `"error"` event rejects with the spawn error (the
specification's `DaemonKillFailed` condition); the `"exit"` event resolves
unconditionally, whatever the exit code. -/
def killAdb : ProcEnd → Except PipeError Unit
  | .errEvent msg => .error (.daemonKillFailed msg)
  | .exitEvent _ => .ok ()

/-- Shared post-install body, from part_000 lines 297-303 (`postInstallDefault`):
run the package installation; only when it resolves, run the daemon-kill sub-step. -/
def postInstallDefault (stderrChunks : List String) (pmEnd adbEnd : ProcEnd) :
    Except PipeError Unit :=
  match installAndroidPackagesOutcome stderrChunks pmEnd with
  | .error e => .error e
  | .ok _ => killAdb adbEnd

/-- C2: whenever the stderr captured from the package-manager child process is
non-empty at process exit, the post-install step rejects with an error carrying
exactly the captured stderr text — for every exit code, in particular zero — and
the daemon-kill sub-step is never reached. -/
theorem postInstall_rejects_on_nonempty_stderr
    (stderrChunks : List String) (code : Int) (adbEnd : ProcEnd)
    (h : capturedStderr stderrChunks ≠ "") :
    postInstallDefault stderrChunks (.exitEvent code) adbEnd
      = .error (.postInstallFailed (capturedStderr stderrChunks)) := by
  simp [postInstallDefault, installAndroidPackagesOutcome, h]

/-- Witness for C2: a concrete run with exit code `0` and one non-empty stderr
chunk rejects with that text. -/
theorem postInstall_rejects_on_nonempty_stderr_witness :
    capturedStderr ["some warning"] ≠ "" ∧
      postInstallDefault ["some warning"] (.exitEvent 0) (.exitEvent 0)
        = .error (.postInstallFailed "some warning") :=
  ⟨by decide,
    postInstall_rejects_on_nonempty_stderr ["some warning"] 0 (.exitEvent 0) (by decide)⟩

/-- C3 counterexample: the package-manager child exits with the non-zero code `1`
and an empty captured stderr, yet the step resolves as success — refuting the
claim that the stage never resolves as success on a non-zero exit code. -/
theorem nonzero_exit_empty_stderr_resolves :
    (1 : Int) ≠ 0 ∧ installAndroidPackagesOutcome [] (.exitEvent 1) = .ok () := by
  constructor
  · decide
  · rfl

/-- C3 amended: on the `"exit"` event the step's resolution ignores the exit code
entirely — the outcome is identical for any two exit codes, and the step resolves
as success exactly when the captured stderr is empty. -/
theorem exit_code_ignored_stderr_decides
    (stderrChunks : List String) (code code2 : Int) :
    (installAndroidPackagesOutcome stderrChunks (.exitEvent code) = .ok ()
        ↔ capturedStderr stderrChunks = "")
    ∧ installAndroidPackagesOutcome stderrChunks (.exitEvent code)
        = installAndroidPackagesOutcome stderrChunks (.exitEvent code2) := by
  unfold installAndroidPackagesOutcome
  constructor
  · split <;> simp_all
  · rfl

/-- C6 counterexample: the adb `kill-server` child exits with the non-zero code
`1`, yet `killAdb` resolves as success — refuting the claim that any unsuccessful
termination, including a non-zero exit code, yields the distinct failure. -/
theorem killAdb_nonzero_exit_resolves_success :
    (1 : Int) ≠ 0 ∧ killAdb (.exitEvent 1) = .ok () := by
  constructor
  · decide
  · rfl

/-- C6 amended: a spawn-level failure of the daemon-kill child (its `"error"`
event) surfaces from the post-install body as the `daemonKillFailed` condition,
which is distinct from every `postInstallFailed` condition; but the kill-server
child's exit code is ignored — any `"exit"` event, including one with a non-zero
code, resolves the sub-step (and hence the whole post-install body) as success. -/
theorem daemonKill_failure_distinct_from_postInstall
    (stderrChunks : List String) (code adbCode : Int) (msg : String)
    (h : capturedStderr stderrChunks = "") :
    postInstallDefault stderrChunks (.exitEvent code) (.errEvent msg)
        = .error (.daemonKillFailed msg)
    ∧ (∀ s, PipeError.daemonKillFailed msg ≠ PipeError.postInstallFailed s)
    ∧ postInstallDefault stderrChunks (.exitEvent code) (.exitEvent adbCode) = .ok () := by
  refine ⟨?_, ?_, ?_⟩
  · simp [postInstallDefault, installAndroidPackagesOutcome, h, killAdb]
  · intro s heq
    cases heq
  · simp [postInstallDefault, installAndroidPackagesOutcome, h, killAdb]

/-- Witness for C6 (amended): concrete inputs with an empty captured stderr, a
non-zero package-manager exit code, and an adb spawn error. -/
theorem daemonKill_failure_distinct_witness :
    capturedStderr [] = ""
    ∧ postInstallDefault [] (.exitEvent 0) (.errEvent "spawn adb ENOENT")
        = .error (.daemonKillFailed "spawn adb ENOENT")
    ∧ postInstallDefault [] (.exitEvent 0) (.exitEvent 1) = .ok () :=
  ⟨rfl,
    (daemonKill_failure_distinct_from_postInstall [] 0 1 "spawn adb ENOENT" rfl).1,
    (daemonKill_failure_distinct_from_postInstall [] 0 1 "spawn adb ENOENT" rfl).2.2⟩

/-- The license-prompt test applied to each stdout chunk, from part_000 line 267:
the regular expression `/\[y\/n\]:/` holds exactly when the chunk contains the
literal substring `[y/n]:`. -/
def matchesPrompt (s : String) : Bool :=
  containsSub s "[y/n]:"

/-- Events written to the package-manager child's stdin stream. -/
inductive StdinEvent where
  | write (s : String)
  | close
  deriving DecidableEq, Repr

/-- Reaction of the `stdout` data handler to one chunk, from part_000 lines
264-272: every chunk matching the prompt pattern triggers a write of `"y"` plus
the platform end-of-line sequence followed by `stdin.end()`; there is no state
guarding against repeated triggers. -/
def onStdoutChunk (eol chunk : String) : List StdinEvent :=
  if matchesPrompt chunk then [.write ("y" ++ eol), .close] else []

/-- The full sequence of stdin events produced over a stage invocation's stdout
chunks, in order. -/
def stdinEvents (eol : String) : List String → List StdinEvent
  | [] => []
  | c :: cs => onStdoutChunk eol c ++ stdinEvents eol cs

/-- Tests whether a stdin event is a write. -/
def isWriteEvent : StdinEvent → Bool
  | .write _ => true
  | .close => false

/-- Tests whether a stdin event is a close of the stream. -/
def isCloseEvent : StdinEvent → Bool
  | .write _ => false
  | .close => true

/-- Number of writes to the child's stdin during one stage invocation. -/
def stdinWriteCount (eol : String) (chunks : List String) : Nat :=
  (stdinEvents eol chunks).countP isWriteEvent

/-- Number of times the child's stdin stream is closed during one invocation. -/
def stdinCloseCount (eol : String) (chunks : List String) : Nat :=
  (stdinEvents eol chunks).countP isCloseEvent

/-- Concrete stdout chunk sequence in which two chunks contain the prompt. -/
def promptChunksEx : List String :=
  ["Do you accept the license? [y/n]:", "Accept license android-sdk-license? [y/n]:"]

/-- C4 counterexample: a stdout sequence with two chunks matching `[y/n]:` makes
the handler write the answer twice and close stdin twice, refuting the claim that
the affirmative answer is written and stdin closed exactly once per stage
invocation, never more. -/
theorem prompt_answered_twice_on_two_matching_chunks :
    (∃ c ∈ promptChunksEx, matchesPrompt c = true)
    ∧ stdinWriteCount "\n" promptChunksEx = 2
    ∧ stdinCloseCount "\n" promptChunksEx = 2 := by
  refine ⟨⟨"Do you accept the license? [y/n]:", by decide, by decide⟩, by decide, by decide⟩

/-- C4 amended: the handler writes the affirmative answer and closes stdin once
for every stdout chunk containing `[y/n]:` — so at least once when some chunk
matches, but as many times as there are matching chunks, not at most once — and
every write carries exactly `"y"` followed by the end-of-line sequence. -/
theorem prompt_answered_once_per_matching_chunk (eol : String) (chunks : List String) :
    stdinWriteCount eol chunks = chunks.countP matchesPrompt
    ∧ stdinCloseCount eol chunks = chunks.countP matchesPrompt
    ∧ (∀ s, StdinEvent.write s ∈ stdinEvents eol chunks → s = "y" ++ eol) := by
  induction chunks with
  | nil =>
      refine ⟨rfl, rfl, ?_⟩
      intro s h
      cases h
  | cons c cs ih =>
      obtain ⟨ih1, ih2, ih3⟩ := ih
      simp only [stdinWriteCount] at ih1
      simp only [stdinCloseCount] at ih2
      refine ⟨?_, ?_, ?_⟩
      · simp only [stdinWriteCount, stdinEvents, List.countP_append, List.countP_cons, ih1]
        cases hm : matchesPrompt c <;> simp [onStdoutChunk, hm, isWriteEvent] <;> omega
      · simp only [stdinCloseCount, stdinEvents, List.countP_append, List.countP_cons, ih2]
        cases hm : matchesPrompt c <;> simp [onStdoutChunk, hm, isCloseEvent] <;> omega
      · intro s h
        rw [stdinEvents] at h
        rcases List.mem_append.mp h with h1 | h2
        · rw [onStdoutChunk] at h1
          by_cases hm : matchesPrompt c = true
          · rw [if_pos hm] at h1
            simp at h1
            exact h1
          · rw [if_neg hm] at h1
            cases h1
        · exact ih3 s h2

/-- Witness for C4 (amended): with one matching chunk, the answer written to
stdin is exactly `"y"` plus the end-of-line sequence, and the write count equals
the number of matching chunks. -/
theorem prompt_answered_once_per_matching_chunk_witness :
    StdinEvent.write "y\n" ∈ stdinEvents "\n" ["ok [y/n]:"]
    ∧ "y\n" = "y" ++ "\n"
    ∧ stdinWriteCount "\n" ["ok [y/n]:"] = List.countP matchesPrompt ["ok [y/n]:"] :=
  ⟨by decide,
    (prompt_answered_once_per_matching_chunk "\n" ["ok [y/n]:"]).2.2 "y\n" (by decide),
    (prompt_answered_once_per_matching_chunk "\n" ["ok [y/n]:"]).1⟩

/-- An initial-segment match survives appending to the larger list. -/
theorem listStartsWith_append (p a b : List Char) (h : listStartsWith a p = true) :
    listStartsWith (a ++ b) p = true := by
  induction p generalizing a with
  | nil => simp [listStartsWith]
  | cons x xs ih =>
      cases a with
      | nil => simp [listStartsWith] at h
      | cons y ys =>
          simp only [List.cons_append, listStartsWith, Bool.and_eq_true] at h ⊢
          exact ⟨h.1, ih ys h.2⟩

/-- The empty pattern occurs in every list. -/
theorem containsSeq_pat_nil (l : List Char) : containsSeq l [] = true := by
  cases l <;> simp [containsSeq, listStartsWith]

/-- A substring occurrence survives appending on the right. -/
theorem containsSeq_append_left (a b p : List Char) (h : containsSeq a p = true) :
    containsSeq (a ++ b) p = true := by
  induction a with
  | nil =>
      cases p with
      | nil => exact containsSeq_pat_nil b
      | cons x xs => simp [containsSeq] at h
  | cons c t ih =>
      rw [List.cons_append]
      simp only [containsSeq, Bool.or_eq_true] at h ⊢
      rcases h with h1 | h2
      · refine Or.inl ?_
        have := listStartsWith_append p (c :: t) b h1
        rwa [List.cons_append] at this
      · exact Or.inr (ih h2)

/-- A substring occurrence survives prepending on the left. -/
theorem containsSeq_append_right (a b p : List Char) (h : containsSeq b p = true) :
    containsSeq (a ++ b) p = true := by
  induction a with
  | nil => simpa using h
  | cons c t ih =>
      rw [List.cons_append]
      simp only [containsSeq, Bool.or_eq_true]
      exact Or.inr ih

/-- String-level version of `containsSeq_append_left`. -/
theorem containsSub_append_left (a b p : String) (h : containsSub a p = true) :
    containsSub (a ++ b) p = true := by
  unfold containsSub at h ⊢
  rw [String.data_append]
  exact containsSeq_append_left _ _ _ h

/-- String-level version of `containsSeq_append_right`. -/
theorem containsSub_append_right (a b p : String) (h : containsSub b p = true) :
    containsSub (a ++ b) p = true := by
  unfold containsSub at h ⊢
  rw [String.data_append]
  exact containsSeq_append_right _ _ _ h

/-- Name of the environment variable managed by the installer (part_000 line 37). -/
def ANDROID_HOME_NAME : String := "ANDROID_HOME"

/-- The export block appended to the shell profile by the Darwin update-variables
stage, from part_000 lines 124-128: the path additions are written with
variable-reference syntax (`$ANDROID_HOME/...`), only the home value itself is a
concrete path. -/
def darwinAppendText (installDestination : String) : String :=
  "\n# Android SDK\nexport ANDROID_HOME="
    ++ pathJoin2 installDestination "android-sdk-macosx"
    ++ "\nexport PATH="
    ++ "\"$PATH:" ++ ("$" ++ ANDROID_HOME_NAME ++ "/tools/") ++ ":"
    ++ ("$" ++ ANDROID_HOME_NAME ++ "/platform-tools/") ++ "\""

/-- Path of the invoking user's shell profile, from part_000 line 129. -/
def darwinBashProfilePath (home : String) : String :=
  pathJoin2 home ".bash_profile"

/-- The shell command executed by the Darwin update-variables stage, from
part_000 line 130: append the export block to the profile file. -/
def darwinUpdateCommand (installDestination home : String) : String :=
  "echo '" ++ darwinAppendText installDestination ++ "' >> '"
    ++ darwinBashProfilePath home ++ "'"

/-- Environment observed by one run of the Darwin update-variables stage:
`home` is `process.env.HOME`; `sudoUid`/`sudoGid` are the parsed
`SUDO_UID`/`SUDO_GID` elevation-context values; `profileExists` is the
`fs.existsSync` check on the profile path made before the append; `execError`
is the outcome of `childProcess.exec` on the append command (`some` = failed). -/
structure DarwinVarsEnv where
  home : String
  sudoUid : Nat
  sudoGid : Nat
  profileExists : Bool
  execError : Option String
  deriving DecidableEq, Repr

/-- Observable outcome of the Darwin update-variables stage. -/
structure DarwinVarsOut where
  result : Except PipeError Unit
  androidHomeValue : Option String
  updateCommand : String
  appendedText : String
  chownCall : Option (String × Nat × Nat)
  deriving Repr

/-- The Darwin update-variables stage, from part_000 lines 120-152
(`updateVariablesDarwin`): the home field is assigned before the shell command
runs; on command failure the stage rejects with the command's error and performs
no ownership change; on success it resets the profile file's ownership to the
invoking user exactly when the profile file did not exist before the append. -/
def updateVariablesDarwin (installDestination : String) (env : DarwinVarsEnv) :
    DarwinVarsOut :=
  let androidHomeValue := pathJoin2 installDestination "android-sdk-macosx"
  let mustChown := !env.profileExists
  match env.execError with
  | some e =>
      { result := .error (.variableUpdateFailed e)
        androidHomeValue := some androidHomeValue
        updateCommand := darwinUpdateCommand installDestination env.home
        appendedText := darwinAppendText installDestination
        chownCall := none }
  | none =>
      { result := .ok ()
        androidHomeValue := some androidHomeValue
        updateCommand := darwinUpdateCommand installDestination env.home
        appendedText := darwinAppendText installDestination
        chownCall :=
          if mustChown then
            some (darwinBashProfilePath env.home, env.sudoUid, env.sudoGid)
          else none }

/-- The appended block names the home variable. -/
theorem darwinAppendText_contains_export (dest : String) :
    containsSub (darwinAppendText dest) "export ANDROID_HOME=" = true := by
  unfold darwinAppendText
  repeat apply containsSub_append_left
  decide

/-- The appended block adds the tools directory by variable reference. -/
theorem darwinAppendText_contains_tools (dest : String) :
    containsSub (darwinAppendText dest) "$ANDROID_HOME/tools/" = true := by
  unfold darwinAppendText
  apply containsSub_append_left
  apply containsSub_append_left
  apply containsSub_append_left
  apply containsSub_append_right
  decide

/-- The appended block adds the platform-tools directory by variable reference. -/
theorem darwinAppendText_contains_platform_tools (dest : String) :
    containsSub (darwinAppendText dest) "$ANDROID_HOME/platform-tools/" = true := by
  unfold darwinAppendText
  apply containsSub_append_left
  apply containsSub_append_right
  decide

/-- The appended export block is the same whether or not the shell command fails. -/
theorem updateVariablesDarwin_appendedText (dest : String) (env : DarwinVarsEnv) :
    (updateVariablesDarwin dest env).appendedText = darwinAppendText dest := by
  cases h : env.execError <;> simp [updateVariablesDarwin, h]

/-- The executed shell command is the append command in all cases. -/
theorem updateVariablesDarwin_updateCommand (dest : String) (env : DarwinVarsEnv) :
    (updateVariablesDarwin dest env).updateCommand = darwinUpdateCommand dest env.home := by
  cases h : env.execError <;> simp [updateVariablesDarwin, h]

/-- The ownership reset happens exactly when the profile file was absent before
the append and the append command succeeded, and then targets the profile file
with the elevation-context identity. -/
theorem updateVariablesDarwin_chownCall (dest : String) (env : DarwinVarsEnv) :
    (updateVariablesDarwin dest env).chownCall
      = if env.profileExists = false ∧ env.execError = none
        then some (darwinBashProfilePath env.home, env.sudoUid, env.sudoGid)
        else none := by
  cases h : env.execError <;> cases hp : env.profileExists <;>
    simp [updateVariablesDarwin, h, hp]

/-- On append-command failure the stage rejects with the command's error. -/
theorem updateVariablesDarwin_result (dest : String) (env : DarwinVarsEnv)
    (e : String) (h : env.execError = some e) :
    (updateVariablesDarwin dest env).result = .error (.variableUpdateFailed e) := by
  simp [updateVariablesDarwin, h]

/-- C7: in the Darwin update-variables stage, an export block naming the home
variable and adding the tools directories by variable reference is appended to
the invoking user's shell-profile file; the file's ownership is reset to the
elevation-context identity (SUDO_UID/SUDO_GID) if and only if the profile file
did not exist before the append and the append command succeeded; and when the
shell command fails the stage rejects with that failure and no ownership change
is made. -/
theorem darwin_vars_chown_iff_new_profile_and_success
    (dest : String) (env : DarwinVarsEnv) (hhome : env.home ≠ "") :
    ((updateVariablesDarwin dest env).chownCall
        = if env.profileExists = false ∧ env.execError = none
          then some (env.home ++ "/" ++ ".bash_profile", env.sudoUid, env.sudoGid)
          else none)
    ∧ (∀ e, env.execError = some e →
        (updateVariablesDarwin dest env).result = .error (.variableUpdateFailed e))
    ∧ (updateVariablesDarwin dest env).updateCommand
        = "echo '" ++ darwinAppendText dest ++ "' >> '"
            ++ (env.home ++ "/" ++ ".bash_profile") ++ "'"
    ∧ containsSub (updateVariablesDarwin dest env).appendedText
        "export ANDROID_HOME=" = true
    ∧ containsSub (updateVariablesDarwin dest env).appendedText
        "$ANDROID_HOME/tools/" = true
    ∧ containsSub (updateVariablesDarwin dest env).appendedText
        "$ANDROID_HOME/platform-tools/" = true := by
  have hbp : (".bash_profile" : String) ≠ "" := by decide
  refine ⟨?_, ?_, ?_, ?_, ?_, ?_⟩
  · rw [updateVariablesDarwin_chownCall]
    simp [darwinBashProfilePath, pathJoin2, hhome, hbp]
  · intro e he
    exact updateVariablesDarwin_result dest env e he
  · rw [updateVariablesDarwin_updateCommand]
    simp [darwinUpdateCommand, darwinBashProfilePath, pathJoin2, hhome, hbp]
  · rw [updateVariablesDarwin_appendedText]
    exact darwinAppendText_contains_export dest
  · rw [updateVariablesDarwin_appendedText]
    exact darwinAppendText_contains_tools dest
  · rw [updateVariablesDarwin_appendedText]
    exact darwinAppendText_contains_platform_tools dest

/-- Concrete environment for a successful Darwin update-variables run on a
machine where the profile file does not exist yet. -/
def darwinVarsEnvOk : DarwinVarsEnv :=
  { home := "/Users/u", sudoUid := 501, sudoGid := 20
    profileExists := false, execError := none }

/-- Concrete environment in which the append command fails. -/
def darwinVarsEnvFail : DarwinVarsEnv :=
  { home := "/Users/u", sudoUid := 501, sudoGid := 20
    profileExists := true, execError := some "spawn /bin/sh EAGAIN" }

/-- Witness for C7: on a concrete successful run with a previously missing
profile file the ownership is reset on the profile path, and on a concrete
failing run the stage rejects with the command's error. -/
theorem darwin_vars_chown_iff_witness :
    ("/Users/u" : String) ≠ ""
    ∧ (updateVariablesDarwin "/opt/sdk" darwinVarsEnvOk).chownCall
        = some ("/Users/u" ++ "/" ++ ".bash_profile", 501, 20)
    ∧ (updateVariablesDarwin "/opt/sdk" darwinVarsEnvFail).result
        = .error (.variableUpdateFailed "spawn /bin/sh EAGAIN") :=
  ⟨by decide,
    ((darwin_vars_chown_iff_new_profile_and_success "/opt/sdk" darwinVarsEnvOk
        (by decide)).1).trans (if_pos ⟨rfl, rfl⟩),
    (darwin_vars_chown_iff_new_profile_and_success "/opt/sdk" darwinVarsEnvFail
        (by decide)).2.1 "spawn /bin/sh EAGAIN" rfl⟩

/-- Packages installed by the post-install stage (part_000 lines 39-50). -/
def ANDROID_PACKAGES : List String :=
  ["tools", "platform-tools", "extra-android-support", "extra-android-m2repository",
    "build-tools-19.1.0", "build-tools-21.1.2", "build-tools-22.0.1",
    "android-19", "android-21", "android-22"]

/-- Name of the SDK's package-manager executable, from part_000 line 38: the
batch script on Windows, the plain binary elsewhere. -/
def androidCommand (osPlatform : String) : String :=
  if osPlatform = "win32" then "android.bat" else "android"

/-- One child-process spawn request: executable path, argument list, and the
optional uid/gid identity override passed to the spawn options. -/
structure SpawnCall where
  command : String
  args : List String
  identity : Option (Nat × Nat)
  deriving DecidableEq, Repr

/-- The spawn request issued by `installAndroidPackages`, from part_000 lines
240-262: on the darwin platform the child is spawned with the uid/gid parsed
from the SUDO_UID/SUDO_GID elevation-context environment variables (passed here
already parsed as `sudoUid`/`sudoGid`); on every other platform the spawn
options carry no identity override. -/
def installAndroidPackagesSpawn (osPlatform androidHomeValue : String)
    (sudoUid sudoGid : Nat) : SpawnCall :=
  { command := pathJoin2 (pathJoin2 androidHomeValue "tools") (androidCommand osPlatform)
    args := ["update", "sdk", "-u", "-a", "--filter",
      String.intercalate "," ANDROID_PACKAGES]
    identity := if osPlatform = "darwin" then some (sudoUid, sudoGid) else none }

/-- C8: the post-install package-manager child process is spawned under the
invoking user's identity (the parsed SUDO_UID/SUDO_GID pair) exactly on the
Darwin platform; on every other platform it is spawned with no identity
override. -/
theorem package_manager_runs_as_invoking_user_only_on_darwin
    (androidHomeValue : String) (sudoUid sudoGid : Nat) :
    (installAndroidPackagesSpawn "darwin" androidHomeValue sudoUid sudoGid).identity
        = some (sudoUid, sudoGid)
    ∧ ∀ osPlatform, osPlatform ≠ "darwin" →
        (installAndroidPackagesSpawn osPlatform androidHomeValue sudoUid sudoGid).identity
          = none := by
  constructor
  · rfl
  · intro p hp
    simp [installAndroidPackagesSpawn, hp]

/-- Witness for C8: concrete platforms on both sides of the dispatch. -/
theorem package_manager_identity_witness :
    ("win32" : String) ≠ "darwin"
    ∧ (installAndroidPackagesSpawn "win32" "/opt/sdk/android-sdk-windows" 501 20).identity
        = none
    ∧ (installAndroidPackagesSpawn "darwin" "/opt/sdk/android-sdk-macosx" 501 20).identity
        = some (501, 20) :=
  ⟨by decide,
    (package_manager_runs_as_invoking_user_only_on_darwin
        "/opt/sdk/android-sdk-windows" 501 20).2 "win32" (by decide),
    (package_manager_runs_as_invoking_user_only_on_darwin
        "/opt/sdk/android-sdk-macosx" 501 20).1⟩

/-- JavaScript `String.prototype.split` on a one-character separator, over
character lists: splitting an empty string yields one empty segment. -/
def splitOnChar (sep : Char) : List Char → List (List Char)
  | [] => [[]]
  | c :: rest =>
      if c = sep then [] :: splitOnChar sep rest
      else
        match splitOnChar sep rest with
        | [] => [[c]]
        | s :: ss => (c :: s) :: ss

/-- Splitting a list that does not contain the separator yields the whole list
as its only segment. -/
theorem splitOnChar_no_sep (sep : Char) (l : List Char)
    (h : ∀ c ∈ l, c ≠ sep) : splitOnChar sep l = [l] := by
  induction l with
  | nil => rfl
  | cons c rest ih =>
      have hc : c ≠ sep := h c (List.mem_cons_self c rest)
      have hr := ih (fun x hx => h x (List.mem_cons_of_mem c hx))
      simp [splitOnChar, hc, hr]

/-- Character-list version of the `path.join` model (see `pathJoin2`). -/
def pathJoinChars (a b : List Char) : List Char :=
  if a = [] then b else if b = [] then a else a ++ '/' :: b

/-- The `Array.prototype.some` loop of `installDarwin`, from part_000 lines
96-108: extend `pathSoFar` by the next segment and stop at the first extended
path the filesystem reports as non-existent. -/
def firstNonExistentDir (fsExists : List Char → Bool) :
    List Char → List (List Char) → Option (List Char)
  | _, [] => none
  | pathSoFar, d :: ds =>
      if fsExists (pathJoinChars pathSoFar d) then
        firstNonExistentDir fsExists (pathJoinChars pathSoFar d) ds
      else some (pathJoinChars pathSoFar d)

/-- The directory `installDarwin` will chown after extraction, from part_000
lines 92-108: the resolved install destination is split on `os.EOL` — the
newline character on the darwin platform, where this stage runs — and the loop
above is started from the empty path. -/
def installDarwinFirstNonExistentDir (fsExists : List Char → Bool)
    (resolvedDestination : List Char) : Option (List Char) :=
  firstNonExistentDir fsExists [] (splitOnChar '\n' resolvedDestination)

/-- C10: because `installDarwin` splits the resolved destination on the
end-of-line sequence rather than on the path separator, for every destination
containing no newline character the computed first non-existent directory is
either undefined (destination already exists) or the entire resolved
destination — never a strictly shallower ancestor — so the post-extraction
recursive ownership reset applies to the whole destination directory. -/
theorem darwin_chown_target_is_whole_destination
    (resolved : List Char) (fsExists : List Char → Bool)
    (hnl : ∀ c ∈ resolved, c ≠ '\n') :
    installDarwinFirstNonExistentDir fsExists resolved
        = (if fsExists resolved then none else some resolved)
    ∧ ∀ d, installDarwinFirstNonExistentDir fsExists resolved = some d →
        d = resolved := by
  have key : installDarwinFirstNonExistentDir fsExists resolved
      = if fsExists resolved then none else some resolved := by
    unfold installDarwinFirstNonExistentDir
    rw [splitOnChar_no_sep '\n' resolved hnl]
    simp [firstNonExistentDir, pathJoinChars]
  refine ⟨key, ?_⟩
  intro d hd
  rw [key] at hd
  cases he : fsExists resolved <;> rw [he] at hd <;> simp_all

/-- Witness for C10: for the concrete newline-free destination `/opt/sdk` on a
filesystem where nothing exists yet, the chown target is the whole destination. -/
theorem darwin_chown_target_witness :
    (∀ c ∈ "/opt/sdk".data, c ≠ '\n')
    ∧ installDarwinFirstNonExistentDir (fun _ => false) "/opt/sdk".data
        = some "/opt/sdk".data :=
  ⟨by decide,
    ((darwin_chown_target_is_whole_destination "/opt/sdk".data (fun _ => false)
        (by decide)).1).trans rfl⟩

/-- Descriptor of the downloadable artifact (`installerInfo`): source URI,
expected byte count and expected content digest. -/
structure InstallerInfo where
  installSource : String
  bytes : Nat
  sha1 : String
  deriving DecidableEq, Repr

/-- The flags record passed to the engine; according to the specification a true
entry marks the stage as already satisfied, so the engine skips it. -/
structure Steps where
  download : Bool
  install : Bool
  updateVariables : Bool
  postInstall : Bool
  deriving DecidableEq, Repr

/-- The per-run mutable instance fields of `AndroidSdkInstaller` (part_000 lines
52-53): both start out unassigned. -/
structure InstallerContext where
  installerArchive : Option String
  androidHomeValue : Option String
  deriving DecidableEq, Repr

/-- Per-run constants: `os.platform()`, `InstallerBase.installerCache`,
`process.env.HOME`, and the parsed SUDO_UID/SUDO_GID elevation-context pair. -/
structure RunConfig where
  osPlatform : String
  installerCache : String
  homeDir : String
  sudoUid : Nat
  sudoGid : Nat
  deriving DecidableEq, Repr

/-- Externally observable effects performed by the stage bodies, in order. -/
inductive Effect where
  | downloadRequest (uri dest : String) (bytes : Nat) (sha1 : String)
  | openArchive (archive : Option String)
  | mkdirRecursive (dir : String) (mode : Nat)
  | extractTo (dest : String)
  | chownRecursive (dir : String) (uid gid : Nat)
  | chownFile (file : String) (uid gid : Nat)
  | execCmd (cmd : String)
  | spawnProc (call : SpawnCall)
  | winSetEnvVar (name value : String)
  | winAddToPath (entries : List String)
  deriving DecidableEq, Repr

/-- Oracle describing the behavior of the external collaborators during one run:
the verified-download primitive's outcome, the (pre-run) filesystem existence
predicate, the outcome of `childProcess.exec` per command (`some` = error), the
combined outcome of the two win32 environment utilities, and the stderr chunks
and terminal events of the two spawned child processes. -/
structure World where
  downloadOk : Bool
  fsExists : String → Bool
  execResult : String → Option String
  winEnvError : Option String
  pmStderrChunks : List String
  pmEnd : ProcEnd
  adbEnd : ProcEnd

/-- Result of one stage body: the updated instance fields, the effects
performed, and `some` error when the stage's promise rejects. -/
structure StageOut where
  ctx : InstallerContext
  actions : List Effect
  err : Option PipeError

/-- The cache path computed by `downloadDefault`, part_000 line 164:
`path.join(InstallerBase.installerCache, "androidSdk", os.platform(),
softwareVersion, path.basename(installSource))`. -/
def archivePath (cfg : RunConfig) (info : InstallerInfo) (version : String) : String :=
  pathJoin2
    (pathJoin2 (pathJoin2 (pathJoin2 cfg.installerCache "androidSdk") cfg.osPlatform)
      version)
    (basename info.installSource)

/-- The shared download body, part_000 lines 163-180 (`downloadDefault`): the
`installerArchive` field is assigned the cache path before the request is made,
so it is set even when the download itself fails; the artifact is requested from
`installSource` with the descriptor's expected signature, and a failure of the
verified-download primitive is the `DownloadFailed` condition. -/
def downloadDefault (cfg : RunConfig) (w : World) (info : InstallerInfo)
    (version : String) (ctx : InstallerContext) : StageOut :=
  let archive := archivePath cfg info version
  { ctx := { ctx with installerArchive := some archive }
    actions := [.downloadRequest info.installSource archive info.bytes info.sha1]
    err := if w.downloadOk then none else some .downloadFailed }

/-- The shared install body, part_000 lines 182-199 (`installDefault`): a
JavaScript-falsy (empty) install destination rejects immediately with the
`MissingInstallDestination` condition before any filesystem effect; otherwise
the archive recorded in `installerArchive` is opened (whatever that field
holds), the destination tree is created with mode 0777 when absent, and the
archive is extracted into the destination. -/
def installDefault (w : World) (installDestination : String)
    (ctx : InstallerContext) : StageOut :=
  if installDestination = "" then
    { ctx := ctx, actions := [], err := some .missingInstallDestination }
  else
    { ctx := ctx
      actions := [.openArchive ctx.installerArchive]
          ++ (if w.fsExists installDestination then []
              else [.mkdirRecursive installDestination 511])
          ++ [.extractTo installDestination]
      err := none }

/-- The post-extraction ownership fix of `installDarwin`, part_000 lines
110-117: when some prefix of the destination did not exist before the install,
reset its ownership recursively to the elevation-context identity. -/
def chownAfter (cfg : RunConfig) (w : World) (installDestination : String)
    (base : StageOut) : StageOut :=
  match base.err with
  | some _ => base
  | none =>
      match installDarwinFirstNonExistentDir (fun l => w.fsExists (String.mk l))
          installDestination.data with
      | some d =>
          { base with
              actions := base.actions
                ++ [.chownRecursive (String.mk d) cfg.sudoUid cfg.sudoGid] }
      | none => base

/-- The Darwin install body, part_000 lines 89-118 (`installDarwin`): record the
first non-existent directory of the resolved destination (computed before the
extraction against the pre-run filesystem; `path.resolve` is modelled as the
identity on the already-absolute destination), run the shared default body, then
fix ownership.  When the default body rejects, no ownership fix happens. -/
def installDarwin (cfg : RunConfig) (w : World) (installDestination : String)
    (ctx : InstallerContext) : StageOut :=
  chownAfter cfg w installDestination (installDefault w installDestination ctx)

/-- The Darwin update-variables stage body wired into the pipeline, part_000
lines 120-152: the environment for `updateVariablesDarwin` is read from the run
configuration and the world oracle, and the home field is stored in the context
whether or not the shell command succeeds. -/
def updateVariablesDarwinStage (cfg : RunConfig) (w : World)
    (installDestination : String) (ctx : InstallerContext) : StageOut :=
  let cmd := darwinUpdateCommand installDestination cfg.homeDir
  let out := updateVariablesDarwin installDestination
    { home := cfg.homeDir, sudoUid := cfg.sudoUid, sudoGid := cfg.sudoGid
      profileExists := w.fsExists (darwinBashProfilePath cfg.homeDir)
      execError := w.execResult cmd }
  { ctx := { ctx with androidHomeValue := out.androidHomeValue }
    actions := .execCmd cmd ::
        (match out.chownCall with
          | some (p, u, g) => [.chownFile p u g]
          | none => [])
    err := match out.result with
            | .ok _ => none
            | .error e => some e }

/-- The win32 update-variables stage body, part_000 lines 67-79
(`updateVariablesWin32`): the home field is assigned before the external win32
environment utilities run; those two utilities are external collaborators, so
their combined outcome is a single oracle value and a reported failure is
modelled as occurring in the first call. -/
def updateVariablesWin32 (cfg : RunConfig) (w : World)
    (installDestination : String) (ctx : InstallerContext) : StageOut :=
  let androidHomeValue := pathJoin2 installDestination "android-sdk-windows"
  { ctx := { ctx with androidHomeValue := some androidHomeValue }
    actions := .winSetEnvVar ANDROID_HOME_NAME androidHomeValue ::
        (match w.winEnvError with
          | some _ => []
          | none => [.winAddToPath [pathJoin2 androidHomeValue "tools",
              pathJoin2 androidHomeValue "platform-tools"]])
    err := match w.winEnvError with
            | some e => some (.variableUpdateFailed e)
            | none => none }

/-- The shared post-install stage body, part_000 lines 240-303: when the home
field was never assigned, building the executable path from it raises a type
error (`path.join(undefined, ...)` throws); otherwise the package-manager child
is spawned (with the identity override of `installAndroidPackagesSpawn`), and
only when it resolves is the adb kill-server child spawned. -/
def postInstallDefaultStage (cfg : RunConfig) (w : World)
    (ctx : InstallerContext) : StageOut :=
  match ctx.androidHomeValue with
  | none => { ctx := ctx, actions := [], err := some .jsTypeError }
  | some home =>
      let call := installAndroidPackagesSpawn cfg.osPlatform home cfg.sudoUid cfg.sudoGid
      match installAndroidPackagesOutcome w.pmStderrChunks w.pmEnd with
      | .error e => { ctx := ctx, actions := [.spawnProc call], err := some e }
      | .ok _ =>
          { ctx := ctx
            actions := [.spawnProc call,
              .spawnProc { command := pathJoin2 (pathJoin2 home "platform-tools") "adb"
                           args := ["kill-server"], identity := none }]
            err := match killAdb w.adbEnd with
                    | .error e => some e
                    | .ok _ => none }

/-- The chmod command of `addExecutePermission`, part_000 line 203. -/
def addExecutePermissionCmd (home : String) : String :=
  "chmod a+x " ++ pathJoin2 (pathJoin2 home "tools") "android"

/-- The Darwin post-install stage body, part_000 lines 154-161 and 201-217:
grant execute permission on the SDK's primary executable (again a type error
when the home field was never assigned), then the shared default body. -/
def postInstallDarwin (cfg : RunConfig) (w : World)
    (ctx : InstallerContext) : StageOut :=
  match ctx.androidHomeValue with
  | none => { ctx := ctx, actions := [], err := some .jsTypeError }
  | some home =>
      let cmd := addExecutePermissionCmd home
      match w.execResult cmd with
      | some e => { ctx := ctx, actions := [.execCmd cmd], err := some (.execFailed e) }
      | none =>
          let rest := postInstallDefaultStage cfg w ctx
          { rest with actions := .execCmd cmd :: rest.actions }

/-- State threaded through the engine: instance fields, flags, performed
actions, and the first failure. -/
structure RunState where
  ctx : InstallerContext
  flags : Steps
  actions : List Effect
  err : Option PipeError

/-- Modelled from the spec: one engine step of the Lifecycle Engine
(`InstallerBase.run` is not part of this repository slice; specification §4.1):
after a failure nothing more runs; a stage whose flag is already true is skipped
with no effect; otherwise the platform-dispatched body runs, on success the
stage's flag is set true, and on failure the pipeline aborts — in either case
the body's field mutations persist. -/
def applyStage (s : RunState) (satisfied : Bool) (setSatisfied : Steps → Steps)
    (body : InstallerContext → StageOut) : RunState :=
  match s.err with
  | some _ => s
  | none =>
      if satisfied then s
      else
        let o := body s.ctx
        match o.err with
        | some e =>
            { s with ctx := o.ctx, actions := s.actions ++ o.actions, err := some e }
        | none =>
            { ctx := o.ctx, flags := setSatisfied s.flags
              actions := s.actions ++ o.actions, err := none }

/-- The four-stage chain in the specification's fixed order. -/
def runStages (s0 : RunState) (steps : Steps)
    (downloadBody installBody updateBody postBody : InstallerContext → StageOut) :
    RunState :=
  let s1 := applyStage s0 steps.download (fun f => { f with download := true })
    downloadBody
  let s2 := applyStage s1 steps.install (fun f => { f with install := true })
    installBody
  let s3 := applyStage s2 steps.updateVariables
    (fun f => { f with updateVariables := true }) updateBody
  applyStage s3 steps.postInstall (fun f => { f with postInstall := true }) postBody

/-- Engine state at the start of a run: unassigned instance fields, the caller's
flags, no actions, no failure. -/
def initState (steps : Steps) : RunState :=
  { ctx := { installerArchive := none, androidHomeValue := none }
    flags := steps, actions := [], err := none }

/-- Modelled from the spec: the Lifecycle Engine (`InstallerBase.run`,
specification §4.1), instantiated with the stage bodies of
`AndroidSdkInstaller`: dispatch is a two-way switch on the host platform
resolved before any stage runs (an unrecognized platform is a configuration
error reported up front), and the four stages run in fixed order with
skip-on-satisfied-flag semantics. -/
def runPipeline (cfg : RunConfig) (w : World) (info : InstallerInfo)
    (version installDestination : String) (steps : Steps) : RunState :=
  if cfg.osPlatform = "win32" then
    runStages (initState steps) steps
      (downloadDefault cfg w info version)
      (installDefault w installDestination)
      (updateVariablesWin32 cfg w installDestination)
      (postInstallDefaultStage cfg w)
  else if cfg.osPlatform = "darwin" then
    runStages (initState steps) steps
      (downloadDefault cfg w info version)
      (installDarwin cfg w installDestination)
      (updateVariablesDarwinStage cfg w installDestination)
      (postInstallDarwin cfg w)
  else
    { initState steps with err := some .unsupportedPlatform }

/-- The install body never touches the instance fields. -/
theorem installDefault_ctx (w : World) (d : String) (c : InstallerContext) :
    (installDefault w d c).ctx = c := by
  unfold installDefault
  split <;> rfl

/-- The ownership fix never touches the instance fields. -/
theorem chownAfter_ctx (cfg : RunConfig) (w : World) (d : String) (b : StageOut) :
    (chownAfter cfg w d b).ctx = b.ctx := by
  unfold chownAfter
  rcases hb : b.err with _ | e
  · simp only [hb]
    rcases hf : installDarwinFirstNonExistentDir (fun l => w.fsExists (String.mk l))
        d.data with _ | dd <;> simp [hf]
  · simp [hb]

/-- The Darwin install body never touches the instance fields. -/
theorem installDarwin_ctx (cfg : RunConfig) (w : World) (d : String)
    (c : InstallerContext) : (installDarwin cfg w d c).ctx = c := by
  unfold installDarwin
  rw [chownAfter_ctx, installDefault_ctx]

/-- The shared post-install body never touches the instance fields. -/
theorem postInstallDefaultStage_ctx (cfg : RunConfig) (w : World)
    (c : InstallerContext) : (postInstallDefaultStage cfg w c).ctx = c := by
  unfold postInstallDefaultStage
  rcases hv : c.androidHomeValue with _ | home
  · simp [hv]
  · simp only [hv]
    cases ho : installAndroidPackagesOutcome w.pmStderrChunks w.pmEnd <;> simp [ho]

/-- The Darwin post-install body never touches the instance fields. -/
theorem postInstallDarwin_ctx (cfg : RunConfig) (w : World)
    (c : InstallerContext) : (postInstallDarwin cfg w c).ctx = c := by
  unfold postInstallDarwin
  rcases hv : c.androidHomeValue with _ | home
  · simp [hv]
  · simp only [hv]
    rcases he : w.execResult (addExecutePermissionCmd home) with _ | e
    · simp [he, postInstallDefaultStage_ctx]
    · simp [he]

/-- The Darwin update-variables stage preserves the archive field. -/
theorem updateVariablesDarwinStage_archive (cfg : RunConfig) (w : World)
    (d : String) (c : InstallerContext) :
    ((updateVariablesDarwinStage cfg w d c).ctx).installerArchive
      = c.installerArchive := rfl

/-- The win32 update-variables stage preserves the archive field. -/
theorem updateVariablesWin32_archive (cfg : RunConfig) (w : World)
    (d : String) (c : InstallerContext) :
    ((updateVariablesWin32 cfg w d c).ctx).installerArchive
      = c.installerArchive := rfl

/-- The download body assigns the cache path to the archive field,
unconditionally. -/
theorem downloadDefault_archive (cfg : RunConfig) (w : World)
    (info : InstallerInfo) (version : String) (c : InstallerContext) :
    ((downloadDefault cfg w info version c).ctx).installerArchive
      = some (archivePath cfg info version) := rfl

/-- The download body preserves the home field. -/
theorem downloadDefault_home (cfg : RunConfig) (w : World)
    (info : InstallerInfo) (version : String) (c : InstallerContext) :
    ((downloadDefault cfg w info version c).ctx).androidHomeValue
      = c.androidHomeValue := rfl

/-- A stage whose flag is already satisfied changes nothing. -/
theorem applyStage_satisfied (s : RunState) (setS : Steps → Steps)
    (body : InstallerContext → StageOut) :
    applyStage s true setS body = s := by
  unfold applyStage
  rcases hs : s.err with _ | e <;> simp [hs]

/-- An engine step whose body preserves the archive field preserves it too. -/
theorem applyStage_archive (s : RunState) (sat : Bool) (setS : Steps → Steps)
    (body : InstallerContext → StageOut)
    (hb : ∀ c, ((body c).ctx).installerArchive = c.installerArchive) :
    ((applyStage s sat setS body).ctx).installerArchive
      = s.ctx.installerArchive := by
  unfold applyStage
  rcases hs : s.err with _ | e
  · simp only [hs]
    cases sat
    · simp only [Bool.false_eq_true, if_false]
      rcases ho : (body s.ctx).err with _ | e2 <;> simp [ho, hb s.ctx]
    · simp
  · simp [hs]

/-- An engine step whose body preserves the home field preserves it too. -/
theorem applyStage_home (s : RunState) (sat : Bool) (setS : Steps → Steps)
    (body : InstallerContext → StageOut)
    (hb : ∀ c, ((body c).ctx).androidHomeValue = c.androidHomeValue) :
    ((applyStage s sat setS body).ctx).androidHomeValue
      = s.ctx.androidHomeValue := by
  unfold applyStage
  rcases hs : s.err with _ | e
  · simp only [hs]
    cases sat
    · simp only [Bool.false_eq_true, if_false]
      rcases ho : (body s.ctx).err with _ | e2 <;> simp [ho, hb s.ctx]
    · simp
  · simp [hs]

/-- Through the four-stage chain, the archive field ends up assigned exactly
when the download stage was not skipped, and then holds the value the download
body assigns. -/
theorem runStages_archive (s0 : RunState) (steps : Steps) (A : String)
    (db ib ub pb : InstallerContext → StageOut)
    (h0 : s0.err = none) (h0a : s0.ctx.installerArchive = none)
    (hdb : ∀ c, ((db c).ctx).installerArchive = some A)
    (hib : ∀ c, ((ib c).ctx).installerArchive = c.installerArchive)
    (hub : ∀ c, ((ub c).ctx).installerArchive = c.installerArchive)
    (hpb : ∀ c, ((pb c).ctx).installerArchive = c.installerArchive) :
    ((runStages s0 steps db ib ub pb).ctx).installerArchive
      = if steps.download then none else some A := by
  unfold runStages
  rw [applyStage_archive _ _ _ _ hpb, applyStage_archive _ _ _ _ hub,
    applyStage_archive _ _ _ _ hib]
  unfold applyStage
  simp only [h0]
  cases hd : steps.download
  · simp only [Bool.false_eq_true, if_false]
    rcases ho : (db s0.ctx).err with _ | e <;> simp [ho, hdb s0.ctx]
  · simp [h0a]

/-- When the update-variables stage is marked satisfied, the home field stays
unassigned through the whole chain (no other stage assigns it). -/
theorem runStages_home_none (s0 : RunState) (steps : Steps)
    (db ib ub pb : InstallerContext → StageOut)
    (h0h : s0.ctx.androidHomeValue = none)
    (hdb : ∀ c, ((db c).ctx).androidHomeValue = c.androidHomeValue)
    (hib : ∀ c, ((ib c).ctx).androidHomeValue = c.androidHomeValue)
    (hpb : ∀ c, ((pb c).ctx).androidHomeValue = c.androidHomeValue)
    (hsk : steps.updateVariables = true) :
    ((runStages s0 steps db ib ub pb).ctx).androidHomeValue = none := by
  unfold runStages
  rw [applyStage_home _ _ _ _ hpb, hsk, applyStage_satisfied,
    applyStage_home _ _ _ _ hib, applyStage_home _ _ _ _ hdb, h0h]

/-- C1 (amended): `installerArchive` is assigned if and only if the download
stage body executed in the current run — when StepFlags mark download as
already satisfied, the body is skipped and the field stays unassigned, there is
no re-derivation from the flags — and `androidHomeValue` stays unassigned
whenever StepFlags mark update-variables as already satisfied, so post-install
steps then run with it unset. -/
theorem cached_archive_set_iff_download_ran
    (cfg : RunConfig) (w : World) (info : InstallerInfo) (version dest : String)
    (steps : Steps)
    (hplat : cfg.osPlatform = "win32" ∨ cfg.osPlatform = "darwin") :
    ((runPipeline cfg w info version dest steps).ctx).installerArchive
        = (if steps.download then none else some (archivePath cfg info version))
    ∧ (steps.updateVariables = true →
        ((runPipeline cfg w info version dest steps).ctx).androidHomeValue = none) := by
  rcases hplat with h | h
  · unfold runPipeline
    rw [if_pos h]
    constructor
    · exact runStages_archive _ _ _ _ _ _ _ rfl rfl
        (downloadDefault_archive cfg w info version)
        (fun c => by rw [installDefault_ctx])
        (updateVariablesWin32_archive cfg w dest)
        (fun c => by rw [postInstallDefaultStage_ctx])
    · intro hsk
      exact runStages_home_none _ _ _ _ _ _ rfl
        (downloadDefault_home cfg w info version)
        (fun c => by rw [installDefault_ctx])
        (fun c => by rw [postInstallDefaultStage_ctx]) hsk
  · have hne : cfg.osPlatform ≠ "win32" := by rw [h]; decide
    unfold runPipeline
    rw [if_neg hne, if_pos h]
    constructor
    · exact runStages_archive _ _ _ _ _ _ _ rfl rfl
        (downloadDefault_archive cfg w info version)
        (fun c => by rw [installDarwin_ctx])
        (updateVariablesDarwinStage_archive cfg w dest)
        (fun c => by rw [postInstallDarwin_ctx])
    · intro hsk
      exact runStages_home_none _ _ _ _ _ _ rfl
        (downloadDefault_home cfg w info version)
        (fun c => by rw [installDarwin_ctx])
        (fun c => by rw [postInstallDarwin_ctx]) hsk

/-- Concrete descriptor used by the concrete runs below. -/
def infoEx : InstallerInfo :=
  { installSource := "http://x/sdk.zip", bytes := 1024, sha1 := "abc" }

/-- Concrete darwin run configuration used by the concrete runs below. -/
def cfgEx : RunConfig :=
  { osPlatform := "darwin", installerCache := "/cache", homeDir := "/Users/u"
    sudoUid := 501, sudoGid := 20 }

/-- Concrete benign world: the download verifies, every path exists, every
shell command succeeds, and both child processes exit 0 with no stderr. -/
def worldEx : World :=
  { downloadOk := true, fsExists := fun _ => true, execResult := fun _ => none
    winEnvError := none, pmStderrChunks := [], pmEnd := .exitEvent 0
    adbEnd := .exitEvent 0 }

/-- C1 counterexample: with StepFlags marking download as already satisfied
(and nothing else), the pipeline leaves `installerArchive` unassigned, yet the
install stage still runs — it opens the unassigned archive — and the whole run
even resolves as success; this refutes both directions of the claimed
invariant (`cachedArchivePath` set when download was previously satisfied, and
the install stage not running unless it is set). -/
theorem skipped_download_runs_install_with_unset_archive :
    ((runPipeline cfgEx worldEx infoEx "21.1" "/opt/sdk"
        { download := true, install := false, updateVariables := false
          postInstall := false }).ctx).installerArchive = none
    ∧ Effect.openArchive none
        ∈ (runPipeline cfgEx worldEx infoEx "21.1" "/opt/sdk"
            { download := true, install := false, updateVariables := false
              postInstall := false }).actions
    ∧ (runPipeline cfgEx worldEx infoEx "21.1" "/opt/sdk"
        { download := true, install := false, updateVariables := false
          postInstall := false }).err = none := by
  refine ⟨by decide, by decide, by decide⟩

/-- Witness for C1 (amended): a concrete run with update-variables marked
satisfied and download not satisfied ends with the home field unassigned and
the archive field assigned to the cache path. -/
theorem cached_archive_set_iff_download_ran_witness :
    (cfgEx.osPlatform = "win32" ∨ cfgEx.osPlatform = "darwin")
    ∧ ((runPipeline cfgEx worldEx infoEx "21.1" "/opt/sdk"
        { download := false, install := false, updateVariables := true
          postInstall := false }).ctx).androidHomeValue = none
    ∧ ((runPipeline cfgEx worldEx infoEx "21.1" "/opt/sdk"
        { download := false, install := false, updateVariables := true
          postInstall := false }).ctx).installerArchive
        = some (archivePath cfgEx infoEx "21.1") := by
  refine ⟨Or.inr rfl, ?_, ?_⟩
  · exact (cached_archive_set_iff_download_ran cfgEx worldEx infoEx "21.1" "/opt/sdk"
      _ (Or.inr rfl)).2 rfl
  · have h := (cached_archive_set_iff_download_ran cfgEx worldEx infoEx "21.1" "/opt/sdk"
      { download := false, install := false, updateVariables := true
        postInstall := false } (Or.inr rfl)).1
    simpa using h

/-- C5 (amended): an empty install destination is only detected when the
install stage begins: the pipeline fails there with the
`MissingInstallDestination` condition, but when the download stage was not
already satisfied it has already executed — the download request for the
artifact was issued — and the only effects of the run are that download
request: no extraction and no destination-directory creation happen. -/
theorem empty_destination_fails_after_download
    (cfg : RunConfig) (w : World) (info : InstallerInfo) (version : String)
    (steps : Steps)
    (hplat : cfg.osPlatform = "win32" ∨ cfg.osPlatform = "darwin")
    (hdl : steps.download = false) (hin : steps.install = false)
    (hok : w.downloadOk = true) :
    (runPipeline cfg w info version "" steps).err
        = some .missingInstallDestination
    ∧ (runPipeline cfg w info version "" steps).actions
        = [Effect.downloadRequest info.installSource (archivePath cfg info version)
            info.bytes info.sha1] := by
  rcases hplat with h | h
  · unfold runPipeline
    rw [if_pos h]
    refine ⟨?_, ?_⟩ <;>
      simp [runStages, applyStage, initState, downloadDefault, installDefault,
        hdl, hin, hok]
  · have hne : cfg.osPlatform ≠ "win32" := by rw [h]; decide
    unfold runPipeline
    rw [if_neg hne, if_pos h]
    refine ⟨?_, ?_⟩ <;>
      simp [runStages, applyStage, initState, downloadDefault, installDefault,
        installDarwin, chownAfter, hdl, hin, hok]

/-- C5 counterexample: on the concrete benign world with the empty destination
and no stage satisfied, the pipeline does fail with
`MissingInstallDestination`, but only after the download request has been
issued — refuting the claim that the failure is immediate with no network
activity. -/
theorem empty_destination_still_downloads :
    (runPipeline cfgEx worldEx infoEx "21.1" ""
        { download := false, install := false, updateVariables := false
          postInstall := false }).err = some .missingInstallDestination
    ∧ Effect.downloadRequest "http://x/sdk.zip"
          "/cache/androidSdk/darwin/21.1/sdk.zip" 1024 "abc"
        ∈ (runPipeline cfgEx worldEx infoEx "21.1" ""
            { download := false, install := false, updateVariables := false
              postInstall := false }).actions := by
  refine ⟨by decide, by decide⟩

/-- Witness for C5 (amended): the concrete benign world instantiates every
hypothesis. -/
theorem empty_destination_fails_after_download_witness :
    (cfgEx.osPlatform = "win32" ∨ cfgEx.osPlatform = "darwin")
    ∧ (runPipeline cfgEx worldEx infoEx "21.1" ""
        { download := false, install := false, updateVariables := false
          postInstall := false }).actions
        = [Effect.downloadRequest infoEx.installSource (archivePath cfgEx infoEx "21.1")
            infoEx.bytes infoEx.sha1] :=
  ⟨Or.inr rfl,
    (empty_destination_fails_after_download cfgEx worldEx infoEx "21.1"
      { download := false, install := false, updateVariables := false
        postInstall := false } (Or.inr rfl) rfl rfl rfl).2⟩

/-- Appending to a non-empty string yields a non-empty string. -/
theorem append_ne_empty_left (a b : String) (h : a ≠ "") : a ++ b ≠ "" := by
  intro he
  apply h
  have hd : (a ++ b).data = [] := congrArg String.data he
  rw [String.data_append] at hd
  exact String.ext ((List.append_eq_nil.mp hd).1.trans rfl)

/-- C9: the download stage stores the archive at the cache path formed exactly
as cache root, then `androidSdk`, then the host platform, then the software
version, then the basename of the install source, joined by separators; the
path is a pure function of those inputs, so re-running with the same SDK,
version and platform computes the same path. -/
theorem download_cache_path_formula
    (cfg : RunConfig) (w : World) (info : InstallerInfo) (version : String)
    (ctx : InstallerContext)
    (hc : cfg.installerCache ≠ "") (hp : cfg.osPlatform ≠ "")
    (hv : version ≠ "") (hb : basename info.installSource ≠ "") :
    ((downloadDefault cfg w info version ctx).ctx).installerArchive
      = some (cfg.installerCache ++ "/androidSdk/" ++ cfg.osPlatform ++ "/"
          ++ version ++ "/" ++ basename info.installSource)
    ∧ (downloadDefault cfg w info version ctx).actions
      = [Effect.downloadRequest info.installSource
          (cfg.installerCache ++ "/androidSdk/" ++ cfg.osPlatform ++ "/"
            ++ version ++ "/" ++ basename info.installSource)
          info.bytes info.sha1] := by
  have hS : ("androidSdk" : String) ≠ "" := by decide
  have h1 : pathJoin2 cfg.installerCache "androidSdk"
      = cfg.installerCache ++ "/androidSdk" := by
    unfold pathJoin2
    rw [if_neg hc, if_neg hS, String.append_assoc cfg.installerCache "/" "androidSdk"]
    rfl
  have ne1 : cfg.installerCache ++ "/androidSdk" ≠ "" :=
    append_ne_empty_left _ _ hc
  have h2 : pathJoin2 (cfg.installerCache ++ "/androidSdk") cfg.osPlatform
      = cfg.installerCache ++ "/androidSdk/" ++ cfg.osPlatform := by
    unfold pathJoin2
    rw [if_neg ne1, if_neg hp,
      String.append_assoc cfg.installerCache "/androidSdk" "/"]
    rfl
  have ne2 : cfg.installerCache ++ "/androidSdk/" ++ cfg.osPlatform ≠ "" :=
    append_ne_empty_left _ _ (append_ne_empty_left _ _ hc)
  have h3 : pathJoin2 (cfg.installerCache ++ "/androidSdk/" ++ cfg.osPlatform) version
      = cfg.installerCache ++ "/androidSdk/" ++ cfg.osPlatform ++ "/" ++ version := by
    unfold pathJoin2
    rw [if_neg ne2, if_neg hv]
  have ne3 : cfg.installerCache ++ "/androidSdk/" ++ cfg.osPlatform ++ "/"
      ++ version ≠ "" :=
    append_ne_empty_left _ _ (append_ne_empty_left _ _ ne2)
  have h4 : pathJoin2
        (cfg.installerCache ++ "/androidSdk/" ++ cfg.osPlatform ++ "/" ++ version)
        (basename info.installSource)
      = cfg.installerCache ++ "/androidSdk/" ++ cfg.osPlatform ++ "/" ++ version
          ++ "/" ++ basename info.installSource := by
    unfold pathJoin2
    rw [if_neg ne3, if_neg hb]
  have key : archivePath cfg info version
      = cfg.installerCache ++ "/androidSdk/" ++ cfg.osPlatform ++ "/" ++ version
          ++ "/" ++ basename info.installSource := by
    unfold archivePath
    rw [h1, h2, h3, h4]
  constructor
  · rw [downloadDefault_archive, key]
  · have ha : (downloadDefault cfg w info version ctx).actions
        = [Effect.downloadRequest info.installSource (archivePath cfg info version)
            info.bytes info.sha1] := rfl
    rw [ha, key]

/-- Witness for C9: the concrete configuration computes the expected concrete
cache path. -/
theorem download_cache_path_formula_witness :
    (cfgEx.installerCache ≠ "" ∧ cfgEx.osPlatform ≠ "" ∧ ("21.1" : String) ≠ ""
      ∧ basename infoEx.installSource ≠ "")
    ∧ ((downloadDefault cfgEx worldEx infoEx "21.1"
        { installerArchive := none, androidHomeValue := none }).ctx).installerArchive
      = some ("/cache" ++ "/androidSdk/" ++ "darwin" ++ "/" ++ "21.1" ++ "/"
          ++ basename infoEx.installSource) :=
  ⟨⟨by decide, by decide, by decide, by decide⟩,
    (download_cache_path_formula cfgEx worldEx infoEx "21.1"
      { installerArchive := none, androidHomeValue := none }
      (by decide) (by decide) (by decide) (by decide)).1⟩
